import Mathlib

/-!
Shallow embedding of `src/muni_display.py` (SF Muni live transit display).

The core logic of the program is:
  - `parse_arrival_data` (lines 244-296): turns a decoded 511 API JSON
    document into a list of arrival records sorted by minutes-until-arrival;
  - `fetch_stop_data` (lines 217-242): wraps the HTTP fetch + JSON decode,
    returning `[]` on a transport or decode error;
  - `update_stop_display` (lines 298-319): per-stop time-window filter,
    cached next-arrival minutes, and the displayed (max 6) arrivals;
  - `update_data` (lines 497-518): one refresh cycle over the three
    configured stops, with the agency-conditional route/destination filter
    (lines 505-506);
  - `update_office_arrival` (lines 411-460): the commute estimator.

Python dynamic values flowing out of `json.loads` are modelled by `JVal`;
Python exceptions raised by attribute access, bad operand types, or
`datetime.fromisoformat` are modelled by `Except PyErr`.  The external
ISO-8601 timestamp parser (`datetime.fromisoformat`) is abstracted as a
function argument `parseIso : String → Option Int` giving the instant in
whole seconds, and the current time is the argument `now` (same clock).
-/

/-- A decoded JSON value (the result of a successful `json.loads`). -/
inductive JVal where
  | jnull
  | jbool (b : Bool)
  | jnum (n : Int)
  | jstr (s : String)
  | jarr (xs : List JVal)
  | jobj (fields : List (String × JVal))

/-- Python exceptions that the embedded code can raise. -/
inductive PyErr where
  | attributeError
  | typeError
  | valueError
deriving DecidableEq

/-- Python truthiness of a decoded JSON value (`if not x`). -/
def truthy : JVal → Bool
  | .jnull => false
  | .jbool b => b
  | .jnum n => n != 0
  | .jstr s => s != ""
  | .jarr xs => !xs.isEmpty
  | .jobj fs => !fs.isEmpty

/-- Python `v.get(key, dflt)`: only a dict has `.get`; any other value
raises `AttributeError`. -/
def pyGetD (v : JVal) (key : String) (dflt : JVal) : Except PyErr JVal :=
  match v with
  | .jobj fields => .ok ((List.lookup key fields).getD dflt)
  | _ => .error .attributeError

/-- Python `v.get(key)` (default `None`). -/
def pyGet (v : JVal) (key : String) : Except PyErr JVal :=
  pyGetD v key .jnull

/-- Python iteration `for x in v` over a decoded JSON value: a list yields
its elements, a dict yields its keys, a string yields its characters, and
anything else raises `TypeError`. -/
def pyIter : JVal → Except PyErr (List JVal)
  | .jarr xs => .ok xs
  | .jobj fs => .ok (fs.map (fun kv => .jstr kv.1))
  | .jstr s => .ok (s.toList.map (fun c => .jstr (String.singleton c)))
  | _ => .error .typeError

/-- Python `v == s` for a decoded JSON value against a `str` literal. -/
def pyStrEq (v : JVal) (s : String) : Bool :=
  match v with
  | .jstr t => t == s
  | _ => false

/-- Python `v in l` for a list of string literals. -/
def pyInStrList (v : JVal) (l : List String) : Bool :=
  l.any (fun s => pyStrEq v s)

/-- One arrival record, the dict built at lines 283-287 of the source:
with keys route, minutes, destination. -/
structure Arrival where
  route : JVal
  minutes : Int
  destination : JVal

/-- Line 276: `minutes_until = int((arrival_time - now).total_seconds() / 60)`.
With both instants in whole seconds, Python `int()` truncates the quotient
toward zero, which is `Int.tdiv`. -/
def minutesUntil (arrival now : Int) : Int :=
  Int.tdiv (arrival - now) 60

/-- Line 285: `max(0, minutes_until)` (the source comment says negative times are not shown). -/
def clampMinutes (m : Int) : Int :=
  max 0 m

/-- Lines 260-261: read LineRef with default empty string, then
PublishedLineName with the LineRef value as the default. -/
def extractRoute (journey : JVal) : Except PyErr JVal :=
  match pyGetD journey "LineRef" (.jstr "") with
  | .error e => .error e
  | .ok lineRef => pyGetD journey "PublishedLineName" lineRef

/-- Lines 279-281: read DestinationName with default empty string and,
when falsy, fall back to DirectionRef with default empty string. -/
def extractDestination (journey : JVal) : Except PyErr JVal :=
  match pyGetD journey "DestinationName" (.jstr "") with
  | .error e => .error e
  | .ok d => if truthy d then .ok d else pyGetD journey "DirectionRef" (.jstr "")

/-- Lines 264-269: read `ExpectedArrivalTime` from the monitored call,
falling back to `AimedArrivalTime` when the former is missing or falsy. -/
def timestampOf (call : JVal) : Except PyErr JVal :=
  match pyGet call "ExpectedArrivalTime" with
  | .error e => .error e
  | .ok ea => if truthy ea then .ok ea else pyGet call "AimedArrivalTime"

/-- Lines 272-290, the body of the inner `try`: parse the timestamp (a
non-string raises in `.replace`, an unparseable string raises in
`fromisoformat`), compute the clamped minutes, extract the destination and
build the record.  Any error here is caught by `except ... continue`. -/
def innerTry (parseIso : String → Option Int) (now : Int)
    (journey routeName ts : JVal) : Except PyErr Arrival :=
  match ts with
  | .jstr s =>
    match parseIso s with
    | some t =>
      match extractDestination journey with
      | .error e => .error e
      | .ok dest => .ok ⟨routeName, clampMinutes (minutesUntil t now), dest⟩
    | none => .error .valueError
  | _ => .error .attributeError

/-- Lines 256-290: process one element of `MonitoredStopVisit`.  Returns
`.ok (some a)` when a record is appended, `.ok none` when the visit is
silently skipped (no usable timestamp, or the inner `try` caught an error),
and `.error e` when an exception escapes to the outer `try`. -/
def processVisit (parseIso : String → Option Int) (now : Int)
    (visit : JVal) : Except PyErr (Option Arrival) :=
  match pyGetD visit "MonitoredVehicleJourney" (.jobj []) with
  | .error e => .error e
  | .ok journey =>
    match extractRoute journey with
    | .error e => .error e
    | .ok routeName =>
      match pyGetD journey "MonitoredCall" (.jobj []) with
      | .error e => .error e
      | .ok call =>
        match timestampOf call with
        | .error e => .error e
        | .ok ts =>
          if truthy ts then
            match innerTry parseIso now journey routeName ts with
            | .ok a => .ok (some a)
            | .error _ => .ok none
          else .ok none

/-- The visit loop of lines 256-290 under the outer `try` of lines 248-294:
an exception thrown while processing a visit aborts the rest of the loop,
but the records collected so far are kept (the handler at line 292 logs and
falls through to the `return`).  The second component is the error the
outer handler logged, if any. -/
def collectVisits (parseIso : String → Option Int) (now : Int) :
    List JVal → List Arrival × Option PyErr
  | [] => ([], none)
  | v :: vs =>
    match processVisit parseIso now v with
    | .ok (some a) =>
      let rest := collectVisits parseIso now vs
      (a :: rest.1, rest.2)
    | .ok none => collectVisits parseIso now vs
    | .error e => ([], some e)

/-- Lines 250-256: navigate `ServiceDelivery` → `StopMonitoringDelivery` →
`MonitoredStopVisit` and start iterating. -/
def navVisits (data : JVal) : Except PyErr (List JVal) :=
  match pyGetD data "ServiceDelivery" (.jobj []) with
  | .error e => .error e
  | .ok sd =>
    match pyGetD sd "StopMonitoringDelivery" (.jobj []) with
    | .error e => .error e
    | .ok sm =>
      match pyGetD sm "MonitoredStopVisit" (.jarr []) with
      | .error e => .error e
      | .ok mv => pyIter mv

/-- The collected (pre-sort) arrivals plus the error logged by the outer
handler at lines 292-294, if any. -/
def parseCore (parseIso : String → Option Int) (now : Int) (data : JVal) :
    List Arrival × Option PyErr :=
  match navVisits data with
  | .error e => ([], some e)
  | .ok vs => collectVisits parseIso now vs

/-- Ordering used at line 296: Python sorted by the minutes key. -/
def arrLE (a b : Arrival) : Prop :=
  a.minutes ≤ b.minutes

instance : DecidableRel arrLE :=
  fun a b => inferInstanceAs (Decidable (a.minutes ≤ b.minutes))

instance : IsTotal Arrival arrLE :=
  ⟨fun a b => Int.le_total a.minutes b.minutes⟩

instance : IsTrans Arrival arrLE :=
  ⟨fun _ _ _ h h2 => le_trans h h2⟩

/-- Lines 244-296, `parse_arrival_data`, together with the error its outer
handler logged (`none` when nothing was logged).  Python `sorted` is a
stable ascending sort, i.e. insertion sort by the `minutes` key. -/
def parse_arrival_data_logged (parseIso : String → Option Int) (now : Int)
    (data : JVal) : List Arrival × Option PyErr :=
  ((parseCore parseIso now data).1.insertionSort arrLE,
   (parseCore parseIso now data).2)

/-- Lines 244-296, `parse_arrival_data`: the value actually returned. -/
def parse_arrival_data (parseIso : String → Option Int) (now : Int)
    (data : JVal) : List Arrival :=
  (parse_arrival_data_logged parseIso now data).1

/-- The HTTP transport outcome seen by `fetch_stop_data`:
`requests.exceptions.RequestException` covers timeouts, connection errors
and `raise_for_status`. -/
inductive ReqErr where
  | requestException
deriving DecidableEq

/-- Outcome of `response.content.decode` at line 231 on a body that is not
valid UTF-8: this exception is caught by neither handler of
`fetch_stop_data`, so it escapes the function. -/
inductive UnicodeErr where
  | unicodeDecodeError
deriving DecidableEq

/-- Outcome of `json.loads` on the decoded response text. -/
inductive JsonErr where
  | jsonDecodeError
deriving DecidableEq

/-- What `fetch_stop_data` logged: a transport error (line 237), a JSON
decode error (line 240), or an error logged inside `parse_arrival_data`. -/
inductive FetchLog where
  | transportError
  | decodeError
  | parseLog (e : PyErr)
deriving DecidableEq

/-- The observable behavior of one HTTP request, in the order the source
exercises it: `requests.get`/`raise_for_status` may raise a
`RequestException` (line 227-228), then `content.decode` may raise a
`UnicodeDecodeError` (line 231), then `json.loads` may raise a
`JSONDecodeError` (line 232); otherwise a JSON document is obtained. -/
abbrev HttpResponse :=
  Except ReqErr (Except UnicodeErr (Except JsonErr JVal))

/-- Lines 217-242, `fetch_stop_data`, with what it (or the parse inside it)
logged.  The two `except` clauses catch the transport and the JSON-decode
exceptions, each returning `[]`; a `UnicodeDecodeError` from line 231
matches neither clause and escapes as an uncaught exception. -/
def fetch_stop_data_logged (parseIso : String → Option Int) (now : Int)
    (response : HttpResponse) :
    Except UnicodeErr (List Arrival × Option FetchLog) :=
  match response with
  | .error _ => .ok ([], some .transportError)
  | .ok (.error u) => .error u
  | .ok (.ok (.error _)) => .ok ([], some .decodeError)
  | .ok (.ok (.ok data)) =>
    let r := parse_arrival_data_logged parseIso now data
    .ok (r.1, r.2.map .parseLog)

/-- Lines 217-242, `fetch_stop_data`: the value returned to the caller, or
the uncaught exception it raises. -/
def fetch_stop_data (parseIso : String → Option Int) (now : Int)
    (response : HttpResponse) : Except UnicodeErr (List Arrival) :=
  match fetch_stop_data_logged parseIso now response with
  | .error u => .error u
  | .ok r => .ok r.1

/-- One entry of `self.stops` (lines 48-52).  The `agency` key is optional
(`stop.get("agency", "SF")` at line 501). -/
structure StopCfg where
  code : String
  name : String
  routes : List String
  agency : Option String

/-- Lines 48-52: the three configured stops. -/
def stops : List StopCfg :=
  [⟨"17874", "Union Square", ["THIRD"], none⟩,
   ⟨"16524", "Stockton and Sutter", ["STOCKTON", "UNION-STOCKTON"], none⟩,
   ⟨"70012", "Caltrain 4th & King", ["EXPRESS", "LIMITED", "LOCAL"], some "CT"⟩]

/-- Line 53: `self.destination_blacklist`. -/
def destination_blacklist : List String :=
  ["4th St & Mission St"]

/-- Line 501: `agency = stop.get("agency", "SF")`. -/
def stopAgency (s : StopCfg) : String :=
  s.agency.getD "SF"

/-- Lines 505-506: for an SF-agency stop, keep only arrivals whose route is
in the routes list of the stop and whose destination is not blacklisted; for
any other agency the list passes through untouched. -/
def routeFilter (stop : StopCfg) (arrivals : List Arrival) : List Arrival :=
  if stopAgency stop = "SF" then
    arrivals.filter (fun a =>
      pyInStrList a.route stop.routes &&
      !(pyInStrList a.destination destination_blacklist))
  else arrivals

/-- Lines 308-312: the per-stop time-window filter.  The Caltrain stop
`"70012"` keeps arrivals in the inclusive window 25..60 minutes; every
other stop keeps arrivals at least 4 minutes out. -/
def filtered_arrivals (stop_code : String) (arrivals : List Arrival) :
    List Arrival :=
  if stop_code = "70012" then
    arrivals.filter (fun a => decide (25 ≤ a.minutes ∧ a.minutes ≤ 60))
  else
    arrivals.filter (fun a => decide (4 ≤ a.minutes))

/-- Modelled from the spec: the inclusive window of StopFilterPolicy,
`[min_minutes, max_minutes]` with an optionally unbounded maximum
(spec section 4.2 / section 3 `StopConfig.window`). -/
def specWindowFilter (lo : Int) (hi : Option Int) (arrivals : List Arrival) :
    List Arrival :=
  arrivals.filter (fun a =>
    decide (lo ≤ a.minutes) && hi.all (fun h => decide (a.minutes ≤ h)))

/-- The keys of `self.stop_frames` and of `self.next_arrivals`
(lines 65-69 and 145-149): the three configured stop codes. -/
def stopCodes : List String :=
  ["17874", "16524", "70012"]

/-- The mutable state touched by `update_stop_display`: the cached
next-arrival minutes (`self.next_arrivals`, lines 65-69, values int or
`None`) and, per stop, the arrivals currently rendered in its frame
(`[]` meaning the "No upcoming arrivals" placeholder). -/
structure UIState where
  nextUnion : Option Int
  nextStockton : Option Int
  nextCaltrain : Option Int
  dispUnion : List Arrival
  dispStockton : List Arrival
  dispCaltrain : List Arrival

/-- Line 316: `self.next_arrivals[stop_code] = ...` (keys are fixed). -/
def setNext (st : UIState) (code : String) (v : Option Int) : UIState :=
  if code = "17874" then { st with nextUnion := v }
  else if code = "16524" then { st with nextStockton := v }
  else if code = "70012" then { st with nextCaltrain := v }
  else st

/-- Replace the rendered arrivals of one stop frame. -/
def setDisp (st : UIState) (code : String) (l : List Arrival) : UIState :=
  if code = "17874" then { st with dispUnion := l }
  else if code = "16524" then { st with dispStockton := l }
  else if code = "70012" then { st with dispCaltrain := l }
  else st

/-- Read `self.next_arrivals[code]`. -/
def nextOf (st : UIState) (code : String) : Option Int :=
  if code = "17874" then st.nextUnion
  else if code = "16524" then st.nextStockton
  else if code = "70012" then st.nextCaltrain
  else none

/-- Read the rendered arrivals of one stop frame. -/
def dispOf (st : UIState) (code : String) : List Arrival :=
  if code = "17874" then st.dispUnion
  else if code = "16524" then st.dispStockton
  else if code = "70012" then st.dispCaltrain
  else []

/-- Lines 298-338, the state effect of `update_stop_display`: an unknown
stop code returns early (line 301); otherwise the old rendering is cleared,
the window filter applied, the cached next-arrival minutes replaced by the
head of the filtered list (or `None`), and at most 6 filtered arrivals are
rendered (line 338). -/
def update_stop_display (st : UIState) (code : String)
    (arrivals : List Arrival) : UIState :=
  if code ∈ stopCodes then
    let fa := filtered_arrivals code arrivals
    let st2 := setNext st code (fa.head?.map (fun a => a.minutes))
    setDisp st2 code (fa.take 6)
  else st

/-- The per-stop loop of `fetch_and_update` (lines 499-507): for each
configured stop, fetch and parse (`fetch_stop_data`), apply the
agency-conditional route/destination filter (lines 505-506), and update
the display state of that stop.  An uncaught exception raised by
`fetch_stop_data` (the `UnicodeDecodeError` of line 231) kills the
background thread: the updates already applied are kept, and the failing
stop and every later stop are left untouched. -/
def runStops (parseIso : String → Option Int) (now : Int)
    (responses : String → HttpResponse) :
    List StopCfg → UIState → UIState
  | [], st => st
  | stop :: rest, st =>
    match fetch_stop_data parseIso now (responses stop.code) with
    | .error _ => st
    | .ok arrivals =>
      runStops parseIso now responses rest
        (update_stop_display st stop.code (routeFilter stop arrivals))

/-- Lines 497-512, one refresh cycle of `update_data` over the three
configured stops.  `responses` gives the HTTP outcome of each stop code
for this cycle. -/
def update_data (parseIso : String → Option Int) (now : Int)
    (responses : String → HttpResponse) (st : UIState) : UIState :=
  runStops parseIso now responses stops st

/-- A fetch attempt that failed with a caught exception: either the
request raised (`requests.exceptions.RequestException`, line 236) or
`json.loads` raised (line 239); both handlers return `[]`. -/
def fetchCaught (r : HttpResponse) : Bool :=
  match r with
  | .error _ => true
  | .ok (.ok (.error _)) => true
  | _ => false

/-- A fetch attempt whose response body is not valid UTF-8: line 231
raises an uncaught `UnicodeDecodeError`. -/
def fetchRaises (r : HttpResponse) : Bool :=
  match r with
  | .ok (.error _) => true
  | _ => false

/-- A fetch attempt that fully succeeds through transport, text decode and
JSON decode. -/
def fetchOk (r : HttpResponse) : Bool :=
  match r with
  | .ok (.ok (.ok _)) => true
  | _ => false

/-- The freshly fetched, filtered arrival list a non-raising stop ends up
displaying state from. -/
def stopFresh (parseIso : String → Option Int) (now : Int) (stop : StopCfg)
    (r : HttpResponse) : List Arrival :=
  filtered_arrivals stop.code
    (routeFilter stop ((fetch_stop_data parseIso now r).toOption.getD []))

/-- A raw value of the `self.next_arrivals` dict as the estimator sees it:
`None`, an `int`, or something malformed. -/
inductive PyVal where
  | pyNone
  | pyInt (n : Int)
  | pyStr (s : String)
deriving DecidableEq

/-- The `self.next_arrivals` dict (lines 65-69) as read by the estimator at
lines 415-417. -/
structure NextArrivalsDict where
  union : PyVal
  stockton : PyVal
  caltrain : PyVal

/-- What `update_office_arrival` leaves in the office label: the
"Calculating..." placeholder (line 421), a ready estimate with its absolute
eta in minutes plus color and emoji (lines 454-457), or the "Office: Error"
label set by the exception handler (line 460). -/
inductive OfficeLabel where
  | calculating
  | ready (eta : Int) (color : String) (emoji : String)
  | errorLabel
deriving DecidableEq

/-- Lines 437-452: color and emoji from the local time of day of the eta.
`eta` is in minutes; hour and minute are taken modulo one day. -/
def officeColor (eta : Int) : String × String :=
  let h := (eta.emod 1440) / 60
  let m := eta.emod 60
  if h < 8 ∨ (h = 8 ∧ m < 30) then ("#2196F3", "🏢")
  else if h = 8 ∧ m < 56 then ("#FF9800", "🏢")
  else ("#F44336", "⏰")

/-- Lines 413-457, the body of the try in the estimator.  `na = none` models
`self.next_arrivals` not yet bound (reading it raises `AttributeError`);
a malformed (non-int, non-`None`) entry raises `TypeError` in the
arithmetic.  With all three values present as ints the commute model of
lines 424-433 applies. -/
def officeBody (na : Option NextArrivalsDict) (now : Int) :
    Except PyErr OfficeLabel :=
  match na with
  | none => .error .attributeError
  | some d =>
    if d.union = PyVal.pyNone ∨ d.stockton = PyVal.pyNone ∨
        d.caltrain = PyVal.pyNone then
      .ok .calculating
    else
      match d.union, d.stockton, d.caltrain with
      | .pyInt u, .pyInt s, .pyInt c =>
        let muni_time := min (u + 15) (s + 10)
        let caltrain_time := c + 49
        let walk_time := 7
        let total_commute := 13 + muni_time + caltrain_time + walk_time
        let eta := now + total_commute
        let ce := officeColor eta
        .ok (.ready eta ce.1 ce.2)
      | _, _, _ => .error .typeError

/-- Lines 411-460, `update_office_arrival`: the `try` body with its
`except Exception` handler, which sets the "Office: Error" label instead of
propagating. -/
def update_office_arrival (na : Option NextArrivalsDict) (now : Int) :
    OfficeLabel :=
  match officeBody na now with
  | .ok l => l
  | .error _ => .errorLabel

/-- C2: whenever all three required stops have an integer next-arrival
value (union = u, stockton = s, caltrain = c), the commute estimate is
ready with total 13 + min(u+15, s+10) + (c+49) + 7 minutes and its eta is
now plus that total; in particular u = 5, s = 8, c = 20 gives eta equal to
now + 107 minutes exactly. -/
theorem c2_commute_total (u s c now : Int) :
    update_office_arrival (some ⟨.pyInt u, .pyInt s, .pyInt c⟩) now =
      .ready (now + (13 + min (u + 15) (s + 10) + (c + 49) + 7))
        (officeColor (now + (13 + min (u + 15) (s + 10) + (c + 49) + 7))).1
        (officeColor (now + (13 + min (u + 15) (s + 10) + (c + 49) + 7))).2 ∧
    update_office_arrival (some ⟨.pyInt 5, .pyInt 8, .pyInt 20⟩) now =
      .ready (now + 107) (officeColor (now + 107)).1
        (officeColor (now + 107)).2 := by
  constructor
  · rfl
  · rfl

/-- C3 counterexample: a computation exception inside the estimator (here a
malformed string entry in the next-arrivals dict, raising TypeError in the
arithmetic) does not produce the Calculating fallback: the handler sets the
"Office: Error" label instead. -/
theorem c3_counterexample :
    officeBody (some ⟨.pyStr "boom", .pyInt 8, .pyInt 20⟩) 0 =
      .error .typeError ∧
    update_office_arrival (some ⟨.pyStr "boom", .pyInt 8, .pyInt 20⟩) 0 =
      .errorLabel ∧
    OfficeLabel.errorLabel ≠ OfficeLabel.calculating := by
  refine ⟨rfl, rfl, by decide⟩

/-- C3 amended: whenever an exception is raised inside the body of the
commute estimator, the exception does not propagate (the handler function
is total) and the resulting label is the Error label ("Office: Error" in
red), not the Calculating fallback. -/
theorem c3_error_degrades (na : Option NextArrivalsDict) (now : Int)
    (e : PyErr) (h : officeBody na now = .error e) :
    update_office_arrival na now = .errorLabel := by
  unfold update_office_arrival
  rw [h]

/-- Witness for the amended C3 at a concrete malformed state. -/
theorem c3_error_degrades_witness :
    officeBody (some ⟨.pyStr "boom", .pyInt 8, .pyInt 20⟩) 5 =
      .error .typeError ∧
    update_office_arrival (some ⟨.pyStr "boom", .pyInt 8, .pyInt 20⟩) 5 =
      .errorLabel :=
  ⟨rfl, c3_error_degrades _ 5 .typeError rfl⟩

/-- C7: the stop time-window filter keeps exactly the arrivals whose
minutes lie in the inclusive configured window — 25..60 for the Caltrain
stop, 4..unbounded for every other stop — preserving order; window
4..unbounded on minutes [2, 4, 10] yields [4, 10], and window 25..60 on
[10, 30, 61] yields [30]. -/
theorem c7_window_filter :
    (∀ arrivals : List Arrival,
      filtered_arrivals "70012" arrivals =
        specWindowFilter 25 (some 60) arrivals) ∧
    (∀ (code : String) (arrivals : List Arrival), code ≠ "70012" →
      filtered_arrivals code arrivals = specWindowFilter 4 none arrivals) ∧
    filtered_arrivals "17874"
        [⟨.jstr "THIRD", 2, .jnull⟩, ⟨.jstr "THIRD", 4, .jnull⟩,
         ⟨.jstr "THIRD", 10, .jnull⟩] =
      [⟨.jstr "THIRD", 4, .jnull⟩, ⟨.jstr "THIRD", 10, .jnull⟩] ∧
    filtered_arrivals "70012"
        [⟨.jstr "LOCAL", 10, .jnull⟩, ⟨.jstr "LOCAL", 30, .jnull⟩,
         ⟨.jstr "LOCAL", 61, .jnull⟩] =
      [⟨.jstr "LOCAL", 30, .jnull⟩] := by
  refine ⟨?_, ?_, ?_, ?_⟩
  · intro arrivals
    rw [filtered_arrivals, if_pos rfl, specWindowFilter]
    apply List.filter_congr
    intro a _
    simp [Bool.decide_and]
  · intro code arrivals h
    rw [filtered_arrivals, if_neg h, specWindowFilter]
    apply List.filter_congr
    intro a _
    simp
  · rfl
  · rfl

/-- Witness for C7 at a concrete non-Caltrain stop code. -/
theorem c7_window_filter_witness :
    filtered_arrivals "16524" [⟨.jstr "STOCKTON", 3, .jnull⟩] =
      specWindowFilter 4 none [⟨.jstr "STOCKTON", 3, .jnull⟩] :=
  c7_window_filter.2.1 "16524" _ (by decide)

/-- A hypothetical stop with the primary agency and an empty routes list,
and an arrival, used to exercise the route filter. -/
def c8Stop : StopCfg :=
  ⟨"99999", "Hypothetical", [], some "SF"⟩

/-- An arrival with a route and a non-blacklisted destination. -/
def c8Arrival : Arrival :=
  ⟨.jstr "R1", 5, .jstr "Somewhere"⟩

/-- C8 counterexample: a stop with an empty routes list and the primary
("SF") agency still has the route filter applied, and it drops every
arrival — the skip is keyed on the agency, not on an empty route set. -/
theorem c8_counterexample :
    c8Stop.routes = [] ∧
    routeFilter c8Stop [c8Arrival] = [] ∧
    [c8Arrival] ≠ ([] : List Arrival) :=
  ⟨rfl, rfl, List.cons_ne_nil _ _⟩

/-- C8 amended: the route (and destination) filter is skipped exactly for
stops whose agency, defaulting to "SF", is not "SF"; for such stops every
parsed arrival passes unchanged.  For an "SF" stop the filter always
applies, so an empty routes list drops every arrival. -/
theorem c8_agency_skip (stop : StopCfg) (arrivals : List Arrival)
    (h : stopAgency stop ≠ "SF") :
    routeFilter stop arrivals = arrivals := by
  rw [routeFilter, if_neg h]

/-- Witness for the amended C8 at the configured Caltrain stop. -/
theorem c8_agency_skip_witness :
    routeFilter ⟨"70012", "Caltrain 4th & King",
        ["EXPRESS", "LIMITED", "LOCAL"], some "CT"⟩ [c8Arrival] =
      [c8Arrival] :=
  c8_agency_skip _ _ (by decide)

/-- C10: the two field fallbacks in the parser are asymmetric.  A journey
whose PublishedLineName key is present with an empty-string value gets the
empty string as its route (the LineRef fallback fires only when the key is
absent), while a journey whose DestinationName is absent, or present but
empty, falls back to its DirectionRef value (default empty string). -/
theorem c10_fallback_asymmetry :
    (∀ jf : List (String × JVal),
      List.lookup "PublishedLineName" jf = some (.jstr "") →
      extractRoute (.jobj jf) = .ok (.jstr "")) ∧
    (∀ jf : List (String × JVal),
      List.lookup "DestinationName" jf = none →
      extractDestination (.jobj jf) =
        .ok ((List.lookup "DirectionRef" jf).getD (.jstr ""))) ∧
    (∀ jf : List (String × JVal),
      List.lookup "DestinationName" jf = some (.jstr "") →
      extractDestination (.jobj jf) =
        .ok ((List.lookup "DirectionRef" jf).getD (.jstr ""))) := by
  refine ⟨?_, ?_, ?_⟩
  · intro jf h
    simp [extractRoute, pyGetD, h]
  · intro jf h
    simp [extractDestination, pyGetD, h, truthy]
  · intro jf h
    simp [extractDestination, pyGetD, h, truthy]

/-- Witness for C10 at concrete journey objects. -/
theorem c10_fallback_asymmetry_witness :
    extractRoute (.jobj [("LineRef", .jstr "30"),
        ("PublishedLineName", .jstr "")]) = .ok (.jstr "") ∧
    extractDestination (.jobj [("DirectionRef", .jstr "IB")]) =
      .ok ((List.lookup "DirectionRef"
        [("DirectionRef", JVal.jstr "IB")]).getD (.jstr "")) ∧
    extractDestination (.jobj [("DestinationName", .jstr ""),
        ("DirectionRef", .jstr "OB")]) =
      .ok ((List.lookup "DirectionRef"
        [("DestinationName", JVal.jstr ""),
         ("DirectionRef", JVal.jstr "OB")]).getD (.jstr "")) :=
  ⟨c10_fallback_asymmetry.1 _ rfl,
   c10_fallback_asymmetry.2.1 _ rfl,
   c10_fallback_asymmetry.2.2 _ rfl⟩

/-- Truncating division toward zero and floor division agree under the
clamp to zero: negative quotients are clamped either way. -/
lemma max_zero_tdiv_eq_fdiv (d : Int) :
    max 0 (Int.tdiv d 60) = max 0 (Int.fdiv d 60) := by
  rcases le_or_lt 0 d with h | h
  · rw [Int.fdiv_eq_tdiv h (by norm_num)]
  · have h1 : Int.tdiv d 60 ≤ 0 := by
      have h2 := Int.tdiv_nonneg (a := -d) (b := 60) (by omega) (by norm_num)
      rw [Int.neg_tdiv] at h2
      omega
    have h3 : Int.fdiv d 60 ≤ 0 := by
      rw [Int.fdiv_eq_ediv _ (by norm_num)]
      omega
    omega

/-- A record built by the inner try gets its minutes from the clamped
truncating division of the timestamp delta. -/
lemma innerTry_ok_minutes (parseIso : String → Option Int) (now : Int)
    (journey routeName ts : JVal) (a : Arrival)
    (h : innerTry parseIso now journey routeName ts = .ok a) :
    ∃ s t, ts = JVal.jstr s ∧ parseIso s = some t ∧
      a.minutes = clampMinutes (minutesUntil t now) := by
  rcases ts with _ | b | n | s | xs | fs
  case jstr =>
    unfold innerTry at h
    rcases hps : parseIso s with _ | t
    · simp only [hps] at h
      exact absurd h (by simp)
    · simp only [hps] at h
      rcases hd : extractDestination journey with e | dest
      · simp only [hd] at h
        exact absurd h (by simp)
      · simp only [hd] at h
        refine ⟨s, t, rfl, hps, ?_⟩
        cases h
        rfl
  all_goals exact absurd h (by unfold innerTry; simp)

/-- Any record emitted for a single visit has nonnegative minutes. -/
lemma processVisit_minutes_nonneg (parseIso : String → Option Int)
    (now : Int) (v : JVal) (a : Arrival)
    (h : processVisit parseIso now v = .ok (some a)) : 0 ≤ a.minutes := by
  unfold processVisit at h
  split at h
  · exact absurd h (by simp)
  split at h
  · exact absurd h (by simp)
  split at h
  · exact absurd h (by simp)
  split at h
  · exact absurd h (by simp)
  split at h
  · split at h
    · rename_i a2 hi
      have ha : a2 = a := by
        cases h
        rfl
      subst ha
      obtain ⟨s, t, _, _, hm⟩ := innerTry_ok_minutes _ _ _ _ _ _ hi
      rw [hm]
      exact le_max_left 0 _
    · exact absurd h (by simp)
  · exact absurd h (by simp)

/-- Every arrival in the collected list of a visit loop has nonnegative
minutes. -/
lemma collectVisits_minutes_nonneg (parseIso : String → Option Int)
    (now : Int) (vs : List JVal) (a : Arrival)
    (h : a ∈ (collectVisits parseIso now vs).1) : 0 ≤ a.minutes := by
  induction vs with
  | nil => simp [collectVisits] at h
  | cons v vs ih =>
    rw [collectVisits] at h
    rcases hp : processVisit parseIso now v with e | o
    · rw [hp] at h
      simp at h
    · rcases o with _ | a2
      · rw [hp] at h
        exact ih h
      · rw [hp] at h
        simp only [List.mem_cons] at h
        rcases h with h | h
        · subst h
          exact processVisit_minutes_nonneg parseIso now v a hp
        · exact ih h

/-- C4: the minutes stored in every emitted ArrivalRecord equal
max(0, floor((arrival − now) / 60)) — the truncation the code performs
agrees with the floor once clamped — and every record in the parser output
therefore has nonnegative minutes, timestamps in the past included. -/
theorem c4_minutes_clamped :
    (∀ arrival now : Int,
      clampMinutes (minutesUntil arrival now) =
        max 0 ((arrival - now).fdiv 60)) ∧
    (∀ (parseIso : String → Option Int) (now : Int) (journey routeName : JVal)
        (s : String) (t : Int) (a : Arrival),
      innerTry parseIso now journey routeName (.jstr s) = .ok a →
      parseIso s = some t →
      a.minutes = max 0 ((t - now).fdiv 60)) ∧
    (∀ (parseIso : String → Option Int) (now : Int) (data : JVal)
        (a : Arrival), a ∈ parse_arrival_data parseIso now data →
      0 ≤ a.minutes) := by
  refine ⟨?_, ?_, ?_⟩
  · intro arrival now
    exact max_zero_tdiv_eq_fdiv (arrival - now)
  · intro parseIso now journey routeName s t a h hps
    obtain ⟨s2, t2, hseq, hps2, hm⟩ := innerTry_ok_minutes parseIso now
      journey routeName _ a h
    injection hseq with hs
    subst hs
    rw [hps] at hps2
    cases hps2
    rw [hm]
    exact max_zero_tdiv_eq_fdiv (t - now)
  · intro parseIso now data a h
    rw [parse_arrival_data, parse_arrival_data_logged] at h
    have h2 : a ∈ (parseCore parseIso now data).1 :=
      (List.perm_insertionSort arrLE (parseCore parseIso now data).1).mem_iff.mp h
    rw [parseCore] at h2
    rcases hn : navVisits data with e | vs <;> rw [hn] at h2
    · simp at h2
    · exact collectVisits_minutes_nonneg parseIso now vs a h2

/-- Filtering by an exact minutes value commutes with one ordered
insertion: the insertion point never crosses an element with the same
minutes value. -/
lemma filter_orderedInsert_minutes (m : Int) (a : Arrival)
    (l : List Arrival) :
    (List.orderedInsert arrLE a l).filter (fun x => decide (x.minutes = m)) =
      (a :: l).filter (fun x => decide (x.minutes = m)) := by
  induction l with
  | nil => rfl
  | cons b bs ih =>
    rw [List.orderedInsert]
    by_cases hab : arrLE a b
    · rw [if_pos hab]
    · rw [if_neg hab]
      have hba : b.minutes < a.minutes := lt_of_not_le hab
      by_cases ha : a.minutes = m
      · have hb : ¬ b.minutes = m := by omega
        simp only [List.filter_cons, decide_eq_true_eq, ha, hb, if_true,
          if_false, ih]
      · simp only [List.filter_cons, decide_eq_true_eq, ha, if_false, ih]

/-- Stability of the insertion sort used at line 296: the subsequence of
records with any fixed minutes value is unchanged by the sort. -/
lemma filter_insertionSort_minutes (m : Int) (l : List Arrival) :
    (l.insertionSort arrLE).filter (fun x => decide (x.minutes = m)) =
      l.filter (fun x => decide (x.minutes = m)) := by
  induction l with
  | nil => rfl
  | cons a l ih =>
    rw [List.insertionSort, filter_orderedInsert_minutes]
    simp only [List.filter_cons, ih]

/-- C5: for every input document, whatever the order of visits in the
payload, the parser output is sorted ascending by minutes, and records
with equal minutes keep the relative order they were collected in from
the payload (stable sort). -/
theorem c5_sorted_stable (parseIso : String → Option Int) (now : Int)
    (data : JVal) :
    List.Sorted arrLE (parse_arrival_data parseIso now data) ∧
    ∀ m : Int,
      (parse_arrival_data parseIso now data).filter
          (fun x => decide (x.minutes = m)) =
        (parseCore parseIso now data).1.filter
          (fun x => decide (x.minutes = m)) := by
  constructor
  · exact List.sorted_insertionSort arrLE (parseCore parseIso now data).1
  · intro m
    exact filter_insertionSort_minutes m (parseCore parseIso now data).1

/-- C6 at the failing input: a response body that is not valid UTF-8 is a
payload of bytes that are not valid JSON, yet `fetch_stop_data` does not
return an empty list with a reported decode error — the
`UnicodeDecodeError` of line 231 escapes both handlers.  The two caught
invalid-payload classes do behave as the claim says: UTF-8 text that is
not valid JSON returns `[]` with a logged decode error, and a JSON
document whose top level is not an object (here an array) returns `[]`
with the error logged by the outer parse handler. -/
theorem c6_unicode_bug :
    (∀ (parseIso : String → Option Int) (now : Int),
      fetch_stop_data parseIso now (.ok (.error .unicodeDecodeError)) =
        .error .unicodeDecodeError) ∧
    (∀ (parseIso : String → Option Int) (now : Int),
      fetch_stop_data_logged parseIso now
          (.ok (.ok (.error .jsonDecodeError))) =
        .ok ([], some .decodeError)) ∧
    (∀ (parseIso : String → Option Int) (now : Int),
      fetch_stop_data_logged parseIso now (.ok (.ok (.ok (.jarr [])))) =
        .ok ([], some (.parseLog .attributeError))) :=
  ⟨fun _ _ => rfl, fun _ _ => rfl, fun _ _ => rfl⟩

/-- A timestamp oracle that parses every string to the instant 600 s. -/
def c4Iso : String → Option Int :=
  fun _ => some 600

/-- A well-formed feed document with a single visit 10 minutes out. -/
def c4Data : JVal :=
  .jobj [("ServiceDelivery", .jobj [("StopMonitoringDelivery",
    .jobj [("MonitoredStopVisit", .jarr [
      .jobj [("MonitoredVehicleJourney", .jobj [
        ("PublishedLineName", .jstr "30"),
        ("DestinationName", .jstr "Caltrain"),
        ("MonitoredCall", .jobj [("ExpectedArrivalTime",
          .jstr "ts")])])]])])])]

/-- Witness for C4 on the record emitted for a concrete feed. -/
theorem c4_minutes_clamped_witness :
    (0 : Int) ≤ (⟨.jstr "30", 10, .jstr "Caltrain"⟩ : Arrival).minutes :=
  c4_minutes_clamped.2.2 c4Iso 0 c4Data _ (by
    have h : parse_arrival_data c4Iso 0 c4Data =
        [⟨.jstr "30", 10, .jstr "Caltrain"⟩] := rfl
    rw [h]
    exact List.mem_singleton.mpr rfl)

/-- Skipped visits are invisible to the collection loop: removing a visit
that processes to a silent skip leaves the collected records (and any
logged outer error) unchanged, so later visits still contribute. -/
lemma collectVisits_skip (parseIso : String → Option Int) (now : Int)
    (v : JVal) (h : processVisit parseIso now v = .ok none) :
    ∀ l1 l2 : List JVal,
      collectVisits parseIso now (l1 ++ v :: l2) =
        collectVisits parseIso now (l1 ++ l2) := by
  intro l1
  induction l1 with
  | nil =>
    intro l2
    simp only [List.nil_append]
    rw [collectVisits, h]
  | cons u l1 ih =>
    intro l2
    simp only [List.cons_append]
    rw [collectVisits, collectVisits]
    rcases hp : processVisit parseIso now u with e | o
    · rfl
    · rcases o with _ | a
      · exact ih l2
      · rw [ih l2]

/-- C9: a visit whose monitored call has neither ExpectedArrivalTime nor
AimedArrivalTime is silently skipped, and a visit whose timestamp string
fails to parse is skipped on its own; in both cases the rest of the
payload is still parsed and contributes its records unchanged. -/
theorem c9_skip_continue :
    (∀ (parseIso : String → Option Int) (now : Int)
        (vf jf cf : List (String × JVal)),
      (List.lookup "MonitoredVehicleJourney" vf).getD (.jobj []) = .jobj jf →
      (List.lookup "MonitoredCall" jf).getD (.jobj []) = .jobj cf →
      List.lookup "ExpectedArrivalTime" cf = none →
      List.lookup "AimedArrivalTime" cf = none →
      processVisit parseIso now (.jobj vf) = .ok none) ∧
    (∀ (parseIso : String → Option Int) (now : Int)
        (vf jf cf : List (String × JVal)) (s : String),
      (List.lookup "MonitoredVehicleJourney" vf).getD (.jobj []) = .jobj jf →
      (List.lookup "MonitoredCall" jf).getD (.jobj []) = .jobj cf →
      (List.lookup "ExpectedArrivalTime" cf).getD .jnull = .jstr s →
      s ≠ "" →
      parseIso s = none →
      processVisit parseIso now (.jobj vf) = .ok none) ∧
    (∀ (parseIso : String → Option Int) (now : Int) (v : JVal)
        (l1 l2 : List JVal),
      processVisit parseIso now v = .ok none →
      collectVisits parseIso now (l1 ++ v :: l2) =
        collectVisits parseIso now (l1 ++ l2)) := by
  refine ⟨?_, ?_, ?_⟩
  · intro parseIso now vf jf cf h1 h2 h3 h4
    have hr : ∃ rn, extractRoute (.jobj jf) = .ok rn := by
      rw [extractRoute, pyGetD]
      exact ⟨_, rfl⟩
    obtain ⟨rn, hr⟩ := hr
    rw [processVisit, pyGetD, h1]
    simp [hr, pyGetD, h2, timestampOf, pyGet, h3, h4, truthy]
  · intro parseIso now vf jf cf s h1 h2 h3 h6 h7
    have hr : ∃ rn, extractRoute (.jobj jf) = .ok rn := by
      rw [extractRoute, pyGetD]
      exact ⟨_, rfl⟩
    obtain ⟨rn, hr⟩ := hr
    rw [processVisit, pyGetD, h1]
    simp [hr, pyGetD, h2, timestampOf, pyGet, h3, h6, h7, truthy, innerTry]
  · intro parseIso now v l1 l2 h
    exact collectVisits_skip parseIso now v h l1 l2

/-- Witness for C9: a visit with no timestamps and a visit with an
unparseable timestamp, spliced before a good visit, leave its record. -/
theorem c9_skip_continue_witness :
    processVisit (fun _ => none) 0
        (.jobj [("MonitoredVehicleJourney",
          .jobj [("MonitoredCall", .jobj [("StopPointRef", .jstr "x")])])]) =
      .ok none ∧
    processVisit (fun _ => none) 0
        (.jobj [("MonitoredVehicleJourney",
          .jobj [("MonitoredCall",
            .jobj [("ExpectedArrivalTime", .jstr "garbage")])])]) =
      .ok none ∧
    collectVisits (fun _ => none) 0
        ([] ++ (.jobj [("MonitoredVehicleJourney",
          .jobj [("MonitoredCall", .jobj [("StopPointRef", .jstr "x")])])]) ::
          [.jnum 3]) =
      collectVisits (fun _ => none) 0 ([] ++ [.jnum 3]) :=
  ⟨c9_skip_continue.1 (fun _ => none) 0 _ _ _ rfl rfl rfl rfl,
   c9_skip_continue.2.1 (fun _ => none) 0 _ _ _ "garbage" rfl rfl rfl
     (by decide) rfl,
   c9_skip_continue.2.2 (fun _ => none) 0 _ [] [.jnum 3]
     (c9_skip_continue.1 (fun _ => none) 0 _ _ _ rfl rfl rfl rfl)⟩


/-- A caught fetch failure (transport or JSON decode) returns the empty
arrival list (lines 236-242). -/
lemma fetch_of_caught (parseIso : String → Option Int) (now : Int)
    (r : HttpResponse) (h : fetchCaught r = true) :
    fetch_stop_data parseIso now r = .ok [] := by
  rcases r with e | o
  · rfl
  · rcases o with u | j
    · exact absurd h (by simp [fetchCaught])
    · rcases j with e | d
      · rfl
      · exact absurd h (by simp [fetchCaught])

/-- A response body that is not valid UTF-8 makes the fetch raise the
uncaught exception of line 231. -/
lemma fetch_of_raises (parseIso : String → Option Int) (now : Int)
    (r : HttpResponse) (h : fetchRaises r = true) :
    fetch_stop_data parseIso now r = .error .unicodeDecodeError := by
  rcases r with e | o
  · exact absurd h (by simp [fetchRaises])
  · rcases o with u | j
    · cases u
      rfl
    · exact absurd h (by simp [fetchRaises])

/-- A fully successful fetch carries a decoded JSON document. -/
lemma fetchOk_inv (r : HttpResponse) (h : fetchOk r = true) :
    ∃ d, r = .ok (.ok (.ok d)) := by
  rcases r with e | o
  · exact absurd h (by simp [fetchOk])
  · rcases o with u | j
    · exact absurd h (by simp [fetchOk])
    · rcases j with e | d
      · exact absurd h (by simp [fetchOk])
      · exact ⟨d, rfl⟩

/-- The route filter of an empty list is empty. -/
lemma routeFilter_nil (stop : StopCfg) : routeFilter stop [] = [] := by
  rw [routeFilter]
  split <;> rfl

/-- The window filter of an empty list is empty. -/
lemma filtered_arrivals_nil (code : String) :
    filtered_arrivals code [] = [] := by
  rw [filtered_arrivals]
  split <;> rfl

/-- The first configured stop is configured. -/
lemma mem_stops_union :
    StopCfg.mk "17874" "Union Square" ["THIRD"] none ∈ stops :=
  List.mem_cons_self _ _

/-- The second configured stop is configured. -/
lemma mem_stops_stockton :
    StopCfg.mk "16524" "Stockton and Sutter" ["STOCKTON", "UNION-STOCKTON"]
      none ∈ stops :=
  List.mem_cons_of_mem _ (List.mem_cons_self _ _)

/-- The third configured stop is configured. -/
lemma mem_stops_caltrain :
    StopCfg.mk "70012" "Caltrain 4th & King" ["EXPRESS", "LIMITED", "LOCAL"]
      (some "CT") ∈ stops :=
  List.mem_cons_of_mem _ (List.mem_cons_of_mem _ (List.mem_cons_self _ _))

/-- A timestamp oracle for the C1 scenario: every string parses to 600 s. -/
def c1Iso : String → Option Int :=
  fun _ => some 600

/-- A healthy feed document for the C1 scenario: one THIRD arrival 10
minutes out. -/
def c1Payload : JVal :=
  .jobj [("ServiceDelivery", .jobj [("StopMonitoringDelivery",
    .jobj [("MonitoredStopVisit", .jarr [
      .jobj [("MonitoredVehicleJourney", .jobj [
        ("PublishedLineName", .jstr "THIRD"),
        ("DestinationName", .jstr "Sunnydale"),
        ("MonitoredCall", .jobj [("ExpectedArrivalTime",
          .jstr "ts")])])]])])])]

/-- A refresh cycle in which exactly the Caltrain stop fails its fetch
(with a caught transport error) and both Muni stops respond with the
healthy payload. -/
def c1Responses : String → HttpResponse :=
  fun code =>
    if code = "70012" then .error .requestException
    else .ok (.ok (.ok c1Payload))

/-- A refresh cycle in which every response body fails UTF-8 decoding. -/
def c1RespU : String → HttpResponse :=
  fun _ => .ok (.error .unicodeDecodeError)

/-- The state cached before the C1 cycle: the Caltrain stop has a stored
next arrival of 30 minutes and one displayed arrival. -/
def c1State0 : UIState :=
  ⟨none, none, some 30, [], [], [⟨.jstr "LOCAL", 30, .jstr "San Jose"⟩]⟩

/-- C1 counterexample: in a cycle where exactly one of the three stops
(the Caltrain stop) fails its fetch with a caught transport error, the
cached state of the failing stop is not left unchanged: its stored
next-arrival minutes is overwritten from some 30 to none and its
displayed arrivals are cleared. -/
theorem c1_counterexample :
    fetchCaught (c1Responses "70012") = true ∧
    fetchOk (c1Responses "17874") = true ∧
    fetchOk (c1Responses "16524") = true ∧
    c1State0.nextCaltrain = some 30 ∧
    (update_data c1Iso 0 c1Responses c1State0).nextCaltrain = none ∧
    (update_data c1Iso 0 c1Responses c1State0).dispCaltrain = [] ∧
    ¬ ((update_data c1Iso 0 c1Responses c1State0).nextCaltrain =
        c1State0.nextCaltrain) := by
  refine ⟨rfl, rfl, rfl, rfl, rfl, rfl, ?_⟩
  intro h
  have h2 : (none : Option Int) = some 30 := h
  exact Option.noConfusion h2


/-- A caught failure is a transport error or a JSON decode error. -/
lemma fetchCaught_inv (r : HttpResponse) (h : fetchCaught r = true) :
    (∃ e, r = .error e) ∨ (∃ e, r = .ok (.ok (.error e))) := by
  rcases r with e | o
  · exact Or.inl ⟨e, rfl⟩
  · rcases o with u | j
    · exact absurd h (by simp [fetchCaught])
    · rcases j with e | d
      · exact Or.inr ⟨e, rfl⟩
      · exact absurd h (by simp [fetchCaught])

/-- A raising fetch has the undecodable-body shape. -/
lemma fetchRaises_inv (r : HttpResponse) (h : fetchRaises r = true) :
    r = .ok (.error .unicodeDecodeError) := by
  rcases r with e | o
  · exact absurd h (by simp [fetchRaises])
  · rcases o with u | j
    · cases u
      rfl
    · exact absurd h (by simp [fetchRaises])

/-- A fetch that does not raise has a transport-error, JSON-error or
fully decoded shape. -/
lemma fetchNotRaises_inv (r : HttpResponse) (h : fetchRaises r = false) :
    (∃ e, r = .error e) ∨ (∃ e, r = .ok (.ok (.error e))) ∨
      (∃ d, r = .ok (.ok (.ok d))) := by
  rcases r with e | o
  · exact Or.inl ⟨e, rfl⟩
  · rcases o with u | j
    · exact absurd h (by simp [fetchRaises])
    · rcases j with e | d
      · exact Or.inr (Or.inl ⟨e, rfl⟩)
      · exact Or.inr (Or.inr ⟨d, rfl⟩)

/-- C1 amended: in a refresh cycle over the three configured stops in
which exactly one stop fails with a caught error (transport or JSON
decode) and the others succeed, every other stop has its cached state
replaced by its freshly fetched, filtered results, and the failing stop
has its state replaced too: its fetch returns the empty list, so its
stored next-arrival minutes becomes none and its displayed arrivals are
cleared.  If instead a stop raises the uncaught UnicodeDecodeError of
line 231 (response body not valid UTF-8), the cycle aborts there: stops
earlier in the configured order keep their fresh updates, while the
raising stop and every later stop retain their previous cached state
unrefreshed. -/
theorem c1_refresh_frame (parseIso : String → Option Int) (now : Int)
    (responses : String → HttpResponse) (st0 : UIState) :
    (∀ stop ∈ stops, fetchCaught (responses stop.code) = true →
      (∀ s2 ∈ stops, s2.code ≠ stop.code →
        fetchOk (responses s2.code) = true) →
      nextOf (update_data parseIso now responses st0) stop.code = none ∧
      dispOf (update_data parseIso now responses st0) stop.code = [] ∧
      ∀ s2 ∈ stops, s2.code ≠ stop.code →
        nextOf (update_data parseIso now responses st0) s2.code =
          (stopFresh parseIso now s2 (responses s2.code)).head?.map
            (fun a => a.minutes) ∧
        dispOf (update_data parseIso now responses st0) s2.code =
          (stopFresh parseIso now s2 (responses s2.code)).take 6) ∧
    (fetchRaises (responses "17874") = true →
      update_data parseIso now responses st0 = st0) ∧
    (fetchRaises (responses "17874") = false →
     fetchRaises (responses "16524") = true →
      nextOf (update_data parseIso now responses st0) "17874" =
        (stopFresh parseIso now
          (StopCfg.mk "17874" "Union Square" ["THIRD"] none)
          (responses "17874")).head?.map (fun a => a.minutes) ∧
      dispOf (update_data parseIso now responses st0) "17874" =
        (stopFresh parseIso now
          (StopCfg.mk "17874" "Union Square" ["THIRD"] none)
          (responses "17874")).take 6 ∧
      nextOf (update_data parseIso now responses st0) "16524" =
        nextOf st0 "16524" ∧
      dispOf (update_data parseIso now responses st0) "16524" =
        dispOf st0 "16524" ∧
      nextOf (update_data parseIso now responses st0) "70012" =
        nextOf st0 "70012" ∧
      dispOf (update_data parseIso now responses st0) "70012" =
        dispOf st0 "70012") ∧
    (fetchRaises (responses "17874") = false →
     fetchRaises (responses "16524") = false →
     fetchRaises (responses "70012") = true →
      nextOf (update_data parseIso now responses st0) "17874" =
        (stopFresh parseIso now
          (StopCfg.mk "17874" "Union Square" ["THIRD"] none)
          (responses "17874")).head?.map (fun a => a.minutes) ∧
      nextOf (update_data parseIso now responses st0) "16524" =
        (stopFresh parseIso now
          (StopCfg.mk "16524" "Stockton and Sutter"
            ["STOCKTON", "UNION-STOCKTON"] none)
          (responses "16524")).head?.map (fun a => a.minutes) ∧
      nextOf (update_data parseIso now responses st0) "70012" =
        nextOf st0 "70012" ∧
      dispOf (update_data parseIso now responses st0) "70012" =
        dispOf st0 "70012") := by
  refine ⟨?_, ?_, ?_, ?_⟩
  · intro stop hmem hfail hok
    simp only [stops, List.mem_cons, List.mem_singleton,
      List.not_mem_nil, or_false] at hmem
    rcases hmem with rfl | rfl | rfl
    · have hc : fetchCaught (responses "17874") = true := hfail
      have ho1 : fetchOk (responses "16524") = true :=
        hok _ mem_stops_stockton (by decide)
      have ho2 : fetchOk (responses "70012") = true :=
        hok _ mem_stops_caltrain (by decide)
      obtain ⟨d1, hd1⟩ := fetchOk_inv _ ho1
      obtain ⟨d2, hd2⟩ := fetchOk_inv _ ho2
      refine ⟨?_, ?_, ?_⟩
      · rcases fetchCaught_inv _ hc with ⟨e, hr⟩ | ⟨e, hr⟩ <;>
          simp [update_data, stops, runStops, hr, hd1, hd2, fetch_stop_data,
            fetch_stop_data_logged, update_stop_display, stopCodes, setNext,
            setDisp, nextOf, routeFilter_nil, filtered_arrivals_nil]
      · rcases fetchCaught_inv _ hc with ⟨e, hr⟩ | ⟨e, hr⟩ <;>
          simp [update_data, stops, runStops, hr, hd1, hd2, fetch_stop_data,
            fetch_stop_data_logged, update_stop_display, stopCodes, setNext,
            setDisp, dispOf, routeFilter_nil, filtered_arrivals_nil]
      · intro s2 hs2 hne
        simp only [stops, List.mem_cons, List.mem_singleton,
          List.not_mem_nil, or_false] at hs2
        rcases hs2 with rfl | rfl | rfl
        · exact absurd rfl hne
        · rcases fetchCaught_inv _ hc with ⟨e, hr⟩ | ⟨e, hr⟩ <;>
            constructor <;>
            simp [update_data, stops, runStops, hr, hd1, hd2,
              fetch_stop_data, fetch_stop_data_logged, update_stop_display,
              stopCodes, setNext, setDisp, nextOf, dispOf, stopFresh,
              Except.toOption]
        · rcases fetchCaught_inv _ hc with ⟨e, hr⟩ | ⟨e, hr⟩ <;>
            constructor <;>
            simp [update_data, stops, runStops, hr, hd1, hd2,
              fetch_stop_data, fetch_stop_data_logged, update_stop_display,
              stopCodes, setNext, setDisp, nextOf, dispOf, stopFresh,
              Except.toOption]
    · have hc : fetchCaught (responses "16524") = true := hfail
      have ho0 : fetchOk (responses "17874") = true :=
        hok _ mem_stops_union (by decide)
      have ho2 : fetchOk (responses "70012") = true :=
        hok _ mem_stops_caltrain (by decide)
      obtain ⟨d0, hd0⟩ := fetchOk_inv _ ho0
      obtain ⟨d2, hd2⟩ := fetchOk_inv _ ho2
      refine ⟨?_, ?_, ?_⟩
      · rcases fetchCaught_inv _ hc with ⟨e, hr⟩ | ⟨e, hr⟩ <;>
          simp [update_data, stops, runStops, hr, hd0, hd2, fetch_stop_data,
            fetch_stop_data_logged, update_stop_display, stopCodes, setNext,
            setDisp, nextOf, routeFilter_nil, filtered_arrivals_nil]
      · rcases fetchCaught_inv _ hc with ⟨e, hr⟩ | ⟨e, hr⟩ <;>
          simp [update_data, stops, runStops, hr, hd0, hd2, fetch_stop_data,
            fetch_stop_data_logged, update_stop_display, stopCodes, setNext,
            setDisp, dispOf, routeFilter_nil, filtered_arrivals_nil]
      · intro s2 hs2 hne
        simp only [stops, List.mem_cons, List.mem_singleton,
          List.not_mem_nil, or_false] at hs2
        rcases hs2 with rfl | rfl | rfl
        · rcases fetchCaught_inv _ hc with ⟨e, hr⟩ | ⟨e, hr⟩ <;>
            constructor <;>
            simp [update_data, stops, runStops, hr, hd0, hd2,
              fetch_stop_data, fetch_stop_data_logged, update_stop_display,
              stopCodes, setNext, setDisp, nextOf, dispOf, stopFresh,
              Except.toOption]
        · exact absurd rfl hne
        · rcases fetchCaught_inv _ hc with ⟨e, hr⟩ | ⟨e, hr⟩ <;>
            constructor <;>
            simp [update_data, stops, runStops, hr, hd0, hd2,
              fetch_stop_data, fetch_stop_data_logged, update_stop_display,
              stopCodes, setNext, setDisp, nextOf, dispOf, stopFresh,
              Except.toOption]
    · have hc : fetchCaught (responses "70012") = true := hfail
      have ho0 : fetchOk (responses "17874") = true :=
        hok _ mem_stops_union (by decide)
      have ho1 : fetchOk (responses "16524") = true :=
        hok _ mem_stops_stockton (by decide)
      obtain ⟨d0, hd0⟩ := fetchOk_inv _ ho0
      obtain ⟨d1, hd1⟩ := fetchOk_inv _ ho1
      refine ⟨?_, ?_, ?_⟩
      · rcases fetchCaught_inv _ hc with ⟨e, hr⟩ | ⟨e, hr⟩ <;>
          simp [update_data, stops, runStops, hr, hd0, hd1, fetch_stop_data,
            fetch_stop_data_logged, update_stop_display, stopCodes, setNext,
            setDisp, nextOf, routeFilter_nil, filtered_arrivals_nil]
      · rcases fetchCaught_inv _ hc with ⟨e, hr⟩ | ⟨e, hr⟩ <;>
          simp [update_data, stops, runStops, hr, hd0, hd1, fetch_stop_data,
            fetch_stop_data_logged, update_stop_display, stopCodes, setNext,
            setDisp, dispOf, routeFilter_nil, filtered_arrivals_nil]
      · intro s2 hs2 hne
        simp only [stops, List.mem_cons, List.mem_singleton,
          List.not_mem_nil, or_false] at hs2
        rcases hs2 with rfl | rfl | rfl
        · rcases fetchCaught_inv _ hc with ⟨e, hr⟩ | ⟨e, hr⟩ <;>
            constructor <;>
            simp [update_data, stops, runStops, hr, hd0, hd1,
              fetch_stop_data, fetch_stop_data_logged, update_stop_display,
              stopCodes, setNext, setDisp, nextOf, dispOf, stopFresh,
              Except.toOption]
        · rcases fetchCaught_inv _ hc with ⟨e, hr⟩ | ⟨e, hr⟩ <;>
            constructor <;>
            simp [update_data, stops, runStops, hr, hd0, hd1,
              fetch_stop_data, fetch_stop_data_logged, update_stop_display,
              stopCodes, setNext, setDisp, nextOf, dispOf, stopFresh,
              Except.toOption]
        · exact absurd rfl hne
  · intro h0
    have hr := fetchRaises_inv _ h0
    simp [update_data, stops, runStops, hr, fetch_stop_data,
      fetch_stop_data_logged]
  · intro h0 h1
    have hr1 := fetchRaises_inv _ h1
    rcases fetchNotRaises_inv _ h0 with ⟨e, hr0⟩ | ⟨e, hr0⟩ | ⟨d, hr0⟩ <;>
      refine ⟨?_, ?_, ?_, ?_, ?_, ?_⟩ <;>
      simp [update_data, stops, runStops, hr0, hr1, fetch_stop_data,
        fetch_stop_data_logged, update_stop_display, stopCodes, setNext,
        setDisp, nextOf, dispOf, stopFresh, Except.toOption,
        routeFilter_nil, filtered_arrivals_nil]
  · intro h0 h1 h2
    have hr2 := fetchRaises_inv _ h2
    rcases fetchNotRaises_inv _ h0 with ⟨e, hr0⟩ | ⟨e, hr0⟩ | ⟨d, hr0⟩ <;>
      rcases fetchNotRaises_inv _ h1 with ⟨e1, hr1⟩ | ⟨e1, hr1⟩ | ⟨d1, hr1⟩ <;>
      refine ⟨?_, ?_, ?_, ?_⟩ <;>
      simp [update_data, stops, runStops, hr0, hr1, hr2, fetch_stop_data,
        fetch_stop_data_logged, update_stop_display, stopCodes, setNext,
        setDisp, nextOf, dispOf, stopFresh, Except.toOption,
        routeFilter_nil, filtered_arrivals_nil]

/-- Witness for the amended C1: the caught-failure conclusion at the
failing-Caltrain cycle, and the uncaught-exception conclusion at a cycle
whose first response body is not valid UTF-8. -/
theorem c1_refresh_frame_witness :
    (nextOf (update_data c1Iso 0 c1Responses c1State0)
        (StopCfg.mk "70012" "Caltrain 4th & King"
          ["EXPRESS", "LIMITED", "LOCAL"] (some "CT")).code = none ∧
     dispOf (update_data c1Iso 0 c1Responses c1State0)
        (StopCfg.mk "70012" "Caltrain 4th & King"
          ["EXPRESS", "LIMITED", "LOCAL"] (some "CT")).code = [] ∧
     ∀ s2 ∈ stops, s2.code ≠ (StopCfg.mk "70012" "Caltrain 4th & King"
          ["EXPRESS", "LIMITED", "LOCAL"] (some "CT")).code →
      nextOf (update_data c1Iso 0 c1Responses c1State0) s2.code =
        (stopFresh c1Iso 0 s2 (c1Responses s2.code)).head?.map
          (fun a => a.minutes) ∧
      dispOf (update_data c1Iso 0 c1Responses c1State0) s2.code =
        (stopFresh c1Iso 0 s2 (c1Responses s2.code)).take 6) ∧
    update_data c1Iso 0 c1RespU c1State0 = c1State0 :=
  ⟨(c1_refresh_frame c1Iso 0 c1Responses c1State0).1 _ mem_stops_caltrain
    rfl
    (by
      intro s2 hs2 hne
      simp only [stops, List.mem_cons, List.mem_singleton,
        List.not_mem_nil, or_false] at hs2
      rcases hs2 with rfl | rfl | rfl
      · rfl
      · rfl
      · exact absurd rfl hne),
   (c1_refresh_frame c1Iso 0 c1RespU c1State0).2.1 rfl⟩
